import Mathlib

set_option maxHeartbeats 1000000
set_option maxRecDepth 8000

/-! # Work Order Matcher: formal model

Shallow embedding of the matching/reconciliation core of the
MJM_Special_WOs repository (src/data/data_models.py,
src/llm/prompt_builder.py, src/llm/anthropic_client.py,
src/utils/input_sanitizer.py).  Python dynamic values are modelled by the
`Value` inductive; Python floats are modelled as rationals (`ℚ`), an
abstraction that is exact on every decimal literal exercised here.
-/

/-- A Python/JSON dynamic value.  Dicts are association lists in insertion
order with unique keys (a later write to an existing key replaces the
value in place, as in Python dicts / `json.loads`). -/
inductive Value where
  | vNull  : Value
  | vBool  : Bool → Value
  | vInt   : Int → Value
  | vRat   : ℚ → Value
  | vStr   : String → Value
  | vList  : List Value → Value
  | vDict  : List (String × Value) → Value

open Value

/-- Association-list lookup (Python `d[k]` / `k in d` on a dict). -/
def dictFind : List (String × Value) → String → Option Value
  | [], _ => none
  | (k, v) :: rest, key => if k = key then some v else dictFind rest key

/-- Python `d.get(k, default)`. -/
def dictGetD (d : List (String × Value)) (k : String) (dflt : Value) : Value :=
  (dictFind d k).getD dflt

/-- Python `d[k] = v`: replace the value in place if the key exists,
otherwise append. -/
def dictSet : List (String × Value) → String → Value → List (String × Value)
  | [], key, v => [(key, v)]
  | (k, w) :: rest, key, v =>
      if k = key then (k, v) :: rest else (k, w) :: dictSet rest key v

/-- Python truthiness: `bool(v)`. -/
def pyTruthy : Value → Bool
  | .vNull => false
  | .vBool b => b
  | .vInt n => n ≠ 0
  | .vRat q => q ≠ 0
  | .vStr s => s ≠ ""
  | .vList l => ¬ l.isEmpty
  | .vDict d => ¬ d.isEmpty

/-- Python `str(v)`.  Faithful on `None`, booleans, ints and strings — the
only cases the modelled code paths apply it to.  The renderings of floats,
lists and dicts are abstracted (the source never feeds those types to the
`str(...)` coercions modelled here, since sheet rows and the JSON fields
involved are strings or numbers in the exercised paths). -/
def pyStr : Value → String
  | .vNull => "None"
  | .vBool true => "True"
  | .vBool false => "False"
  | .vInt n => toString n
  | .vRat q => toString q
  | .vStr s => s
  | .vList _ => "[...]"
  | .vDict _ => "\x7b...\x7d"

/-- Whitespace test used by Python `str.strip()` (restricted to the ASCII
whitespace characters, which are the only ones the inputs here contain). -/
def pyIsWs (c : Char) : Bool :=
  c = ' ' ∨ c = '\t' ∨ c = '\n' ∨ c = '\r' ∨ c = '\x0b' ∨ c = '\x0c'

/-- Python `str.strip()`. -/
def pyStrip (s : String) : String :=
  String.mk (((s.toList.dropWhile pyIsWs).reverse.dropWhile pyIsWs).reverse)

/-- Does `needle` occur as a contiguous subsequence of `hay`?  (Python
`needle in hay` for strings.) -/
def containsSeq (needle : List Char) : List Char → Bool
  | [] => needle.isEmpty
  | c :: rest => needle.isPrefixOf (c :: rest) || containsSeq needle rest

/-- Python `needle in hay` (substring test). -/
def strContainsSub (hay needle : String) : Bool :=
  containsSeq needle.toList hay.toList

/-- ASCII lower-casing of a string (Python `.lower()`; the texts involved
are ASCII). -/
def asciiLower (s : String) : String :=
  String.mk (s.toList.map Char.toLower)

/-- Value of a list of decimal digit characters. -/
def digitsToNat (ds : List Char) : Nat :=
  ds.foldl (fun a c => a * 10 + (c.toNat - '0'.toNat)) 0

/-- Components of a parsed decimal literal: sign, integer part, fractional
part with its digit count, exponent sign and exponent.  Kept discrete
(Nat/Bool) so that parsing is kernel-computable; the rational value is
assembled separately by `DecParts.toRat`. -/
structure DecParts where
  neg : Bool
  ip : Nat
  fp : Nat
  flen : Nat
  eneg : Bool
  e : Nat
deriving DecidableEq, Repr

/-- Rational value denoted by parsed decimal components. -/
def DecParts.toRat (p : DecParts) : ℚ :=
  let m : ℚ := (p.ip : ℚ) + (p.fp : ℚ) / (10 : ℚ) ^ p.flen
  let m := if p.neg then -m else m
  if p.eneg then m / (10 : ℚ) ^ p.e else m * (10 : ℚ) ^ p.e

/-- Parser core for Python `float(string)` restricted to finite decimal
literals: optional sign, then `digits [. digits]` or `. digits`, with an
optional decimal exponent.  (Python additionally accepts `inf`/`nan` and
underscore digit separators; none of the code paths modelled here feeds
those to `float`, and the float is modelled as an exact rational.) -/
def pyFloatParts (cs : List Char) : Option DecParts :=
  let (neg, cs) : Bool × List Char :=
    match cs with
    | '-' :: rest => (true, rest)
    | '+' :: rest => (false, rest)
    | _ => (false, cs)
  let intDigits := cs.takeWhile Char.isDigit
  let cs1 := cs.dropWhile Char.isDigit
  let (fracDigits, cs2) : List Char × List Char :=
    match cs1 with
    | '.' :: rest => (rest.takeWhile Char.isDigit, rest.dropWhile Char.isDigit)
    | _ => ([], cs1)
  if intDigits.isEmpty ∧ fracDigits.isEmpty then none
  else
    match cs2 with
    | [] => some ⟨neg, digitsToNat intDigits, digitsToNat fracDigits,
                  fracDigits.length, false, 0⟩
    | 'e' :: rest | 'E' :: rest =>
        let (eneg, rest) : Bool × List Char :=
          match rest with
          | '-' :: r => (true, r)
          | '+' :: r => (false, r)
          | _ => (false, rest)
        let eDigits := rest.takeWhile Char.isDigit
        let rest2 := rest.dropWhile Char.isDigit
        if eDigits.isEmpty ∨ ¬ rest2.isEmpty then none
        else some ⟨neg, digitsToNat intDigits, digitsToNat fracDigits,
                   fracDigits.length, eneg, digitsToNat eDigits⟩
    | _ => none

/-- Python `float(s)` for a string argument: strip surrounding whitespace,
then parse a decimal literal; `none` models `ValueError`. -/
def pyFloatOfStr (s : String) : Option ℚ :=
  (pyFloatParts (pyStrip s).toList).map DecParts.toRat

/-- Python `float(v)` on a dynamic value; `none` models the
`ValueError`/`TypeError` raised on non-coercible input.  `bool` is a
subclass of `int` in Python, so booleans coerce to 0/1. -/
def pyFloatVal : Value → Option ℚ
  | .vInt n => some (n : ℚ)
  | .vRat q => some q
  | .vBool b => some (if b then 1 else 0)
  | .vStr s => pyFloatOfStr s
  | _ => none

/-- Python `int(f)` for a float `f`: truncation toward zero. -/
def ratTrunc (q : ℚ) : Int :=
  if q < 0 then -⌊-q⌋ else ⌊q⌋

/-! ## JSON parsing (models Python `json.loads`)

A strict JSON parser over character lists, fuelled for termination.
Numbers are kept discrete: integers become `vInt`, decimals become `vRat`
via `DecParts.toRat`.  Error messages are abbreviated relative to CPython;
no modelled claim depends on the decoder's message text. -/

/-- Whitespace skipping per the JSON grammar. -/
def jskipWs (cs : List Char) : List Char :=
  cs.dropWhile (fun c => c = ' ' ∨ c = '\t' ∨ c = '\n' ∨ c = '\r')

/-- Value of a hexadecimal digit, if any. -/
def hexVal (c : Char) : Option Nat :=
  if '0' ≤ c ∧ c ≤ '9' then some (c.toNat - '0'.toNat)
  else if 'a' ≤ c ∧ c ≤ 'f' then some (c.toNat - 'a'.toNat + 10)
  else if 'A' ≤ c ∧ c ≤ 'F' then some (c.toNat - 'A'.toNat + 10)
  else none

/-- Parse the remainder of a JSON string literal (after the opening quote),
returning the decoded string and the rest of the input.  Surrogate-pair
recombination is not modelled (no modelled input contains astral-plane
escapes). -/
def jstrAux (acc : List Char) (cs : List Char) : Option (String × List Char) :=
  match cs with
  | [] => none
  | '"' :: rest => some (String.mk acc.reverse, rest)
  | '\\' :: rest =>
    match rest with
    | '"' :: r => jstrAux ('"' :: acc) r
    | '\\' :: r => jstrAux ('\\' :: acc) r
    | '/' :: r => jstrAux ('/' :: acc) r
    | 'b' :: r => jstrAux ('\x08' :: acc) r
    | 'f' :: r => jstrAux ('\x0c' :: acc) r
    | 'n' :: r => jstrAux ('\n' :: acc) r
    | 'r' :: r => jstrAux ('\r' :: acc) r
    | 't' :: r => jstrAux ('\t' :: acc) r
    | 'u' :: a :: b :: c :: d :: r =>
      match hexVal a, hexVal b, hexVal c, hexVal d with
      | some x, some y, some z, some w =>
          jstrAux (Char.ofNat (((x * 16 + y) * 16 + z) * 16 + w) :: acc) r
      | _, _, _, _ => none
    | _ => none
  | c :: rest => if c.toNat < 0x20 then none else jstrAux (c :: acc) rest

/-- Parse a JSON number at the head of the input.  Integers (no fraction,
no exponent) become `vInt`; anything else becomes a `vRat` float. -/
def jnum (cs : List Char) : Option (Value × List Char) :=
  let (neg, cs1) : Bool × List Char :=
    match cs with
    | '-' :: r => (true, r)
    | _ => (false, cs)
  let intDigits := cs1.takeWhile Char.isDigit
  let r1 := cs1.dropWhile Char.isDigit
  if intDigits.isEmpty then none
  else if intDigits.length > 1 ∧ intDigits.headD '0' = '0' then none
  else
    let (fracDigits, r2, hasFrac) : List Char × List Char × Bool :=
      match r1 with
      | '.' :: r => (r.takeWhile Char.isDigit, r.dropWhile Char.isDigit, true)
      | _ => ([], r1, false)
    if hasFrac ∧ fracDigits.isEmpty then none
    else
      match r2 with
      | 'e' :: r | 'E' :: r =>
        let (eneg, r') : Bool × List Char :=
          match r with
          | '-' :: r2 => (true, r2)
          | '+' :: r2 => (false, r2)
          | _ => (false, r)
        let eDigits := r'.takeWhile Char.isDigit
        if eDigits.isEmpty then none
        else
          some (vRat (DecParts.toRat
            ⟨neg, digitsToNat intDigits, digitsToNat fracDigits, fracDigits.length,
             eneg, digitsToNat eDigits⟩), r'.dropWhile Char.isDigit)
      | _ =>
        if hasFrac then
          some (vRat (DecParts.toRat
            ⟨neg, digitsToNat intDigits, digitsToNat fracDigits, fracDigits.length,
             false, 0⟩), r2)
        else
          let n : Int := (digitsToNat intDigits : Int)
          some (vInt (if neg then -n else n), r1)

/-- Work item of the JSON parser: parse one value, the members of an
object, or the items of an array. -/
inductive JTask where
  | value : List Char → JTask
  | members : List (String × Value) → List Char → JTask
  | items : List Value → List Char → JTask

/-- Fuelled JSON parser loop.  Object members accumulate with
`dictSet` (duplicate keys: last write wins, as in Python `json.loads`). -/
def jrun : Nat → JTask → Except String (Value × List Char)
  | 0, _ => .error "Nesting too deep"
  | fuel + 1, .value cs =>
    (match jskipWs cs with
     | [] => .error "Expecting value"
     | '"' :: rest =>
       (match jstrAux [] rest with
        | none => .error "Unterminated string"
        | some (s, rest') => .ok (vStr s, rest'))
     | '{' :: rest =>
       (match jskipWs rest with
        | '}' :: rest' => .ok (vDict [], rest')
        | _ => jrun fuel (.members [] rest))
     | '[' :: rest =>
       (match jskipWs rest with
        | ']' :: rest' => .ok (vList [], rest')
        | _ => jrun fuel (.items [] rest))
     | 't' :: 'r' :: 'u' :: 'e' :: rest => .ok (vBool true, rest)
     | 'f' :: 'a' :: 'l' :: 's' :: 'e' :: rest => .ok (vBool false, rest)
     | 'n' :: 'u' :: 'l' :: 'l' :: rest => .ok (vNull, rest)
     | cs' =>
       match jnum cs' with
       | some (v, rest) => .ok (v, rest)
       | none => .error "Expecting value")
  | fuel + 1, .members acc cs =>
    (match jskipWs cs with
     | '"' :: rest =>
       (match jstrAux [] rest with
        | none => .error "Unterminated string"
        | some (k, rest1) =>
          match jskipWs rest1 with
          | ':' :: rest2 =>
            (match jrun fuel (.value rest2) with
             | .error e => .error e
             | .ok (v, rest3) =>
               let acc' := dictSet acc k v
               match jskipWs rest3 with
               | ',' :: rest4 => jrun fuel (.members acc' rest4)
               | '}' :: rest4 => .ok (vDict acc', rest4)
               | _ => .error "Expecting delimiter")
          | _ => .error "Expecting colon")
     | _ => .error "Expecting property name")
  | fuel + 1, .items acc cs =>
    (match jrun fuel (.value cs) with
     | .error e => .error e
     | .ok (v, rest) =>
       match jskipWs rest with
       | ',' :: rest' => jrun fuel (.items (v :: acc) rest')
       | ']' :: rest' => .ok (vList (v :: acc).reverse, rest')
       | _ => .error "Expecting delimiter")

/-- Python `json.loads`: parse a complete JSON document, rejecting
trailing non-whitespace.  The fuel bound is generous: the loop consumes
input on every recursive call chain. -/
def jsonParse (s : String) : Except String Value :=
  match jrun (2 * s.length + 8) (.value s.toList) with
  | .error e => .error e
  | .ok (v, rest) => if (jskipWs rest).isEmpty then .ok v else .error "Extra data"

/-! ## Response contract validator

Model of `PromptBuilder.validate_response` (src/llm/prompt_builder.py,
lines 158-199): extract a brace-delimited span, parse it as JSON, check
required top-level and per-match fields, and range-check confidences.
Python-level `TypeError`/`KeyError` possibilities are threaded through
`Except String`; the function's generic `except` clause turns them into
error dicts, so the model stays total. -/

/-- Index of the first occurrence of `needle` in `hay`, if any. -/
def findSeqIdx (needle : List Char) : List Char → Option Nat
  | [] => if needle.isEmpty then some 0 else none
  | c :: rest =>
    if needle.isPrefixOf (c :: rest) then some 0
    else (findSeqIdx needle rest).map (· + 1)

/-- Semantics of `re.search(r'\x7b.*\x7d', text, re.DOTALL)`: the leftmost
match runs from the first brace that has a closing brace somewhere after
it (equivalently, the first opening brace before the last closing brace)
to the last closing brace of the whole text. -/
def extractJsonSpan (s : String) : Option String :=
  let cs := s.toList
  match cs.findIdx? (· = '{'), (cs.reverse.findIdx? (· = '}')) with
  | some i, some jr =>
    let j := cs.length - 1 - jr
    if i < j then some (String.mk ((cs.drop i).take (j - i + 1))) else none
  | _, _ => none

/-- Python `needle in container` for a string needle: key membership for
dicts, element equality for lists, substring for strings; raises
(`Except.error`) on non-container types. -/
def pyIn (needle : String) : Value → Except String Bool
  | .vDict d => .ok ((dictFind d needle).isSome)
  | .vList l => .ok (l.any fun v => match v with | .vStr t => t = needle | _ => false)
  | .vStr t => .ok (strContainsSub t needle)
  | _ => .error "TypeError: argument not iterable"

/-- Python `container[key]` for a string key; raises on non-dicts. -/
def pyIndex (container : Value) (key : String) : Except String Value :=
  match container with
  | .vDict d =>
    match dictFind d key with
    | some v => .ok v
    | none => .error "KeyError"
  | _ => .error "TypeError: indices must be integers"

/-- Python iteration `for x in v`: list elements, string characters, or
dict keys; raises on non-iterables. -/
def pyIter : Value → Except String (List Value)
  | .vList l => .ok l
  | .vStr s => .ok (s.toList.map fun c => vStr (String.mk [c]))
  | .vDict d => .ok (d.map fun kv => vStr kv.1)
  | _ => .error "TypeError: not iterable"

/-- Python `v.get(key, default)`; raises on non-dicts (`AttributeError`). -/
def pyGetAttr (v : Value) (key : String) (dflt : Value) : Except String Value :=
  match v with
  | .vDict d => .ok (dictGetD d key dflt)
  | _ => .error "AttributeError: no attribute get"

/-- Python `isinstance(v, (int, float))`.  `bool` is a subclass of `int`. -/
def pyIsNumber : Value → Bool
  | .vInt _ => true
  | .vRat _ => true
  | .vBool _ => true
  | _ => false

/-- The range test `0 <= v <= 100` on a numeric value, written per
constructor so that integer confidences are kernel-computable. -/
def confInRange : Value → Bool
  | .vInt n => decide (0 ≤ n ∧ n ≤ 100)
  | .vRat q => decide (0 ≤ q ∧ q ≤ 100)
  | .vBool _ => true
  | _ => false

def requiredTopFields : List String := ["matches", "unmatched_items", "summary"]

def requiredMatchFields : List String :=
  ["email_item", "work_order_id", "confidence", "evidence"]

/-- First field of `fields` that is not `in` the container, if any. -/
def firstMissing (fields : List String) (container : Value) :
    Except String (Option String) :=
  match fields with
  | [] => .ok none
  | f :: rest =>
    match pyIn f container with
    | .error e => .error e
    | .ok true => firstMissing rest container
    | .ok false => .ok (some f)

/-- The per-match loop of `validate_response`: returns the error message
produced by the first failing entry, if any. -/
def checkMatches (l : List Value) : Except String (Option String) :=
  match l with
  | [] => .ok none
  | m :: rest =>
    match firstMissing requiredMatchFields m with
    | .error e => .error e
    | .ok (some f) => .ok (some ("Missing required match field: " ++ f))
    | .ok none =>
      match pyIndex m "confidence" with
      | .error e => .error e
      | .ok c =>
        if ¬ (pyIsNumber c ∧ confInRange c) then
          .ok (some ("Invalid confidence score: " ++ pyStr c))
        else checkMatches rest

/-- Model of `PromptBuilder.validate_response`.  Always returns a dict:
either `\x7b"success": True, "parsed": ...\x7d` or a dict with an `"error"`
key; every Python exception path lands in an error dict. -/
def validate_response (response_text : String) : Value :=
  match extractJsonSpan response_text with
  | none => vDict [("error", vStr "No JSON found in response"),
                   ("raw_response", vStr response_text)]
  | some jsonStr =>
    match jsonParse jsonStr with
    | .error e => vDict [("error", vStr ("JSON parsing failed: " ++ e)),
                         ("raw_response", vStr response_text)]
    | .ok parsed =>
      let checked : Except String Value :=
        match firstMissing requiredTopFields parsed with
        | .error e => .error e
        | .ok (some f) =>
          .ok (vDict [("error", vStr ("Missing required field: " ++ f)),
                      ("parsed", parsed)])
        | .ok none =>
          match pyGetAttr parsed "matches" (vList []) with
          | .error e => .error e
          | .ok mv =>
            match pyIter mv with
            | .error e => .error e
            | .ok ms =>
              match checkMatches ms with
              | .error e => .error e
              | .ok (some msg) =>
                .ok (vDict [("error", vStr msg), ("parsed", parsed)])
              | .ok none =>
                .ok (vDict [("success", vBool true), ("parsed", parsed)])
      match checked with
      | .ok v => v
      | .error e => vDict [("error", vStr ("Validation failed: " ++ e)),
                           ("raw_response", vStr response_text)]

/-- Observer: key lookup on a dict-shaped value (used in theorem
statements to inspect results). -/
def vGet (v : Value) (k : String) : Option Value :=
  match v with
  | .vDict d => dictFind d k
  | _ => none

/-! ## Data models (src/data/data_models.py)

`WorkOrder`, `AmountComparison`, `MatchEvidence`, `Match` and
`MatchingResult`, with the reconciliation classmethod
`MatchingResult.from_api_response`.  Floats are rationals; the
`float('inf')` case of `percentage_difference` is modelled by `none`. -/

/-- A work order from Google Sheets (dataclass `WorkOrder`).  The four
text fields are `str` in the source; `raw_data` keeps the original row. -/
structure WorkOrder where
  wo_id : String
  total : String
  location : String
  description : String
  raw_data : List (String × Value)

namespace WorkOrder

/-- `WorkOrder.from_sheets_row`: each field is `str(row_data.get(KEY, '')).strip()`
— the empty-string default applies only when the key is absent; a present
value of any type is rendered with `str()` (so `None` becomes `"None"`). -/
def from_sheets_row (row_data : List (String × Value)) : WorkOrder :=
  { wo_id := pyStrip (pyStr (dictGetD row_data "WO #" (vStr "")))
    total := pyStrip (pyStr (dictGetD row_data "Total" (vStr "")))
    location := pyStrip (pyStr (dictGetD row_data "Location" (vStr "")))
    description := pyStrip (pyStr (dictGetD row_data "Description" (vStr "")))
    raw_data := row_data }

/-- The character filter of `re.sub(r'[^\d.-]', '', ...)`: keep only
(ASCII) digits, `.` and `-`. -/
def stripAmountChars (s : String) : String :=
  String.mk (s.toList.filter fun c => c.isDigit || c = '.' || c = '-')

/-- `WorkOrder.get_clean_amount`: strip non-numeric characters from the
total string and parse; any failure (empty residue, bare `-` or `.`, or
unparseable residue) yields 0.0.  The source's `isinstance(self.total, str)`
guard is vacuous here since the field is a string. -/
def get_clean_amount (wo : WorkOrder) : ℚ :=
  if wo.total = "" then 0
  else
    let clean := stripAmountChars (pyStrip wo.total)
    if clean = "" ∨ clean = "-" ∨ clean = "." then 0
    else
      match pyFloatOfStr clean with
      | some q => q
      | none => 0

/-- `WorkOrder.is_alpha_numeric`: `bool(self.wo_id and re.match(r'^[A-Za-z]', self.wo_id))`. -/
def is_alpha_numeric (wo : WorkOrder) : Bool :=
  wo.wo_id ≠ "" &&
    (match wo.wo_id.toList with
     | c :: _ => c.isAlpha
     | [] => false)

end WorkOrder

/-- Comparison between email and work order amounts (dataclass
`AmountComparison`). -/
structure AmountComparison where
  email_amount : ℚ
  wo_amount : ℚ
  difference : ℚ

namespace AmountComparison

/-- `AmountComparison.percentage_difference`:
`abs(self.difference / self.wo_amount) * 100`, with `float('inf')`
(modelled as `none`) when `wo_amount == 0` and `email_amount != 0`, and
0.0 when both are 0. -/
def percentage_difference (c : AmountComparison) : Option ℚ :=
  if c.wo_amount = 0 then (if c.email_amount ≠ 0 then none else some 0)
  else some (|c.difference / c.wo_amount| * 100)

/-- `AmountComparison.is_exact_match`: `abs(self.difference) < 0.01`. -/
def is_exact_match (c : AmountComparison) : Bool :=
  decide (|c.difference| < 0.01)

/-- `AmountComparison.is_close_match`: `self.percentage_difference <= 15.0`
(false when the percentage is infinite). -/
def is_close_match (c : AmountComparison) : Bool :=
  match percentage_difference c with
  | none => false
  | some p => decide (p ≤ 15.0)

end AmountComparison

/-- Evidence supporting a match (dataclass `MatchEvidence`).  Signal lists
keep their raw payload elements. -/
structure MatchEvidence where
  primary_signals : List Value
  supporting_signals : List Value
  score_breakdown : String
  concerns : List Value

/-- A matched email item (dataclass `Match`). -/
structure Match where
  email_item : String
  work_order_id : String
  confidence : Int
  evidence : MatchEvidence
  amount_comparison : AmountComparison
  work_order : Option WorkOrder

/-- Complete result of a matching run (dataclass `MatchingResult`).
`unmatched_items` and `summary` pass through the raw payload values;
`error`/`raw_response` default to Python `None` (`vNull`).  The source's
`matches` attribute is named `matches'` here (`matches` is reserved in
Lean). -/
structure MatchingResult where
  matches' : List Match
  unmatched_items : Value
  summary : Value
  success : Bool
  error : Value
  raw_response : Value

namespace MatchingResult

/-- The inner `safe_float` helper of `from_api_response`:
`float(value) if value is not None else default`, with `ValueError`/
`TypeError` falling back to the default 0.0. -/
def safe_float : Value → ℚ
  | .vNull => 0
  | v =>
    match pyFloatVal v with
    | some q => q
    | none => 0

/-- Lookup in the `{wo.wo_id: wo}` dict comprehension: on duplicate
identifiers the last write wins. -/
def lookupWO (work_orders : List WorkOrder) (id : String) : Option WorkOrder :=
  work_orders.reverse.find? fun wo => wo.wo_id = id

/-- Scanner for Python `s.replace(pat, '')` with a non-empty pattern:
remove all (leftmost, non-overlapping) occurrences. -/
def removeAllSeq (pat : List Char) : Nat → List Char → List Char
  | 0, cs => cs
  | _ + 1, [] => []
  | fuel + 1, c :: rest =>
    if pat.isPrefixOf (c :: rest) then removeAllSeq pat fuel ((c :: rest).drop pat.length)
    else c :: removeAllSeq pat fuel rest

/-- The work-order id cleaning step:
`str(wo_id_raw).replace('WO#', '').strip() if wo_id_raw else ''`. -/
def clean_wo_id (raw : Value) : String :=
  if pyTruthy raw then
    pyStrip (String.mk
      (removeAllSeq "WO#".toList ((pyStr raw).length + 1) (pyStr raw).toList))
  else ""

/-- Evidence construction with the type checks of `from_api_response`:
a non-dict `evidence` payload becomes empty evidence, non-list signal
fields become `[]`, and `score_breakdown` is `str(...)`-coerced. -/
def evidenceFrom (md : List (String × Value)) : MatchEvidence :=
  let ed : List (String × Value) :=
    match dictGetD md "evidence" (vDict []) with
    | .vDict d => d
    | _ => []
  { primary_signals :=
      match dictFind ed "primary_signals" with
      | some (.vList l) => l
      | _ => []
    supporting_signals :=
      match dictFind ed "supporting_signals" with
      | some (.vList l) => l
      | _ => []
    score_breakdown := pyStr (dictGetD ed "score_breakdown" (vStr ""))
    concerns :=
      match dictFind ed "concerns" with
      | some (.vList l) => l
      | _ => [] }

/-- AmountComparison construction with the type checks of
`from_api_response`: a non-dict payload becomes `\x7b\x7d`, each amount
goes through `safe_float`. -/
def amountCompFrom (md : List (String × Value)) : AmountComparison :=
  let ad : List (String × Value) :=
    match dictGetD md "amount_comparison" (vDict []) with
    | .vDict d => d
    | _ => []
  { email_amount := safe_float (dictGetD ad "email_amount" vNull)
    wo_amount := safe_float (dictGetD ad "wo_amount" vNull)
    difference := safe_float (dictGetD ad "difference" vNull) }

/-- Confidence normalization of `from_api_response`:
`int(float(match_data.get('confidence', 0)))` clamped into [0, 100], with
any coercion error defaulting to 0. -/
def confidenceFrom (md : List (String × Value)) : Int :=
  match pyFloatVal (dictGetD md "confidence" (vInt 0)) with
  | some q => max 0 (min 100 (ratTrunc q))
  | none => 0

/-- One iteration of the match-conversion loop of `from_api_response`:
non-dict entries are skipped (`continue`); dict entries always produce a
`Match`, resolving the optional work-order back-reference via the lookup
(absent when the cleaned identifier has no candidate). -/
def convertMatch (work_orders : List WorkOrder) (match_data : Value) : Option Match :=
  match match_data with
  | .vDict md =>
    let wo_id := clean_wo_id (dictGetD md "work_order_id" (vStr ""))
    some
      { email_item := pyStr (dictGetD md "email_item" (vStr ""))
        work_order_id := wo_id
        confidence := confidenceFrom md
        evidence := evidenceFrom md
        amount_comparison := amountCompFrom md
        work_order := lookupWO work_orders wo_id }
  | _ => none

/-- `MatchingResult.from_api_response`.  A falsy `success` in the payload
produces the failed result (empty lists, propagated error) without
touching `matches`.  Otherwise the matches payload is iterated (a
non-iterable raises, propagated as `Except.error`) and converted
entry-wise. -/
def from_api_response (api_result : List (String × Value))
    (work_orders : List WorkOrder) : Except String MatchingResult :=
  if ¬ pyTruthy (dictGetD api_result "success" (vBool false)) then
    .ok { matches' := []
          unmatched_items := vList []
          summary := vStr "Matching failed"
          success := false
          error := dictGetD api_result "error" (vStr "Unknown error")
          raw_response := dictGetD api_result "raw_response" vNull }
  else
    match pyIter (dictGetD api_result "matches" (vList [])) with
    | .error e => .error e
    | .ok ms =>
      .ok { matches' := ms.filterMap (convertMatch work_orders)
            unmatched_items := dictGetD api_result "unmatched_items" (vList [])
            summary := dictGetD api_result "summary" (vStr "Analysis complete")
            success := true
            error := vNull
            raw_response := dictGetD api_result "raw_response" vNull }

end MatchingResult

/-! ## Instruction-builder candidate serialization
(`PromptBuilder._format_work_orders`, src/llm/prompt_builder.py 140-156) -/

/-- Python slicing `v[:n]` for the string case; a non-string (unsliceable)
value raises.  (Sheet rows carry string cells; the `Except` models the
`TypeError` a malformed row would raise.) -/
def pySliceStr (v : Value) (n : Nat) : Except String String :=
  match v with
  | .vStr s => .ok (String.mk (s.toList.take n))
  | _ => .error "TypeError: unsliceable value"

/-- One line of the work-order summary:
`f"WO#\x7b...\x7d | $\x7b...\x7d | \x7bLocation[:50]\x7d | \x7bDescription[:80]\x7d"`. -/
def formatWoLine (wo : List (String × Value)) : Except String String := do
  let loc ← pySliceStr (dictGetD wo "Location" (vStr "N/A")) 50
  let desc ← pySliceStr (dictGetD wo "Description" (vStr "N/A")) 80
  .ok ("WO#" ++ pyStr (dictGetD wo "WO #" (vStr "N/A")) ++ " | $" ++
       pyStr (dictGetD wo "Total" (vStr "N/A")) ++ " | " ++ loc ++ " | " ++ desc)

/-- `PromptBuilder._format_work_orders`: serialize at most the first 100
candidates, appending a remainder count when more exist. -/
def format_work_orders (work_orders : List (List (String × Value))) :
    Except String String :=
  if work_orders.isEmpty then .ok "No work orders available"
  else do
    let formatted ← (work_orders.take 100).mapM formatWoLine
    let result := String.intercalate "\n" formatted
    if work_orders.length > 100 then
      .ok (result ++ "\n... and " ++ toString (work_orders.length - 100) ++
           " more work orders available")
    else
      .ok result

/-! ## Input sanitizer (`EmailTextSanitizer`, src/utils/input_sanitizer.py)

The regex transformations are modelled by direct scanners with the same
match semantics.  Scanners that advance by more than one character use a
step-counting fuel argument (always called with fuel > input length, so
the fuel-exhausted branch is unreachable) to stay kernel-computable. -/

/-- Largest index of `l` whose element satisfies `p`. -/
def findLastIdx (p : Char → Bool) (l : List Char) : Option Nat :=
  (l.reverse.findIdx? p).map fun ri => l.length - 1 - ri

/-- Decoded character of an HTML entity body (between `&` and `;`).
Models Python `html.unescape` restricted to numeric references and the
common named entities; the modelled flows never feed other entities. -/
def entityChar (e : String) : Option Char :=
  if e = "amp" then some '&'
  else if e = "lt" then some '<'
  else if e = "gt" then some '>'
  else if e = "quot" then some '"'
  else if e = "apos" then some (Char.ofNat 39)
  else if e = "nbsp" then some (Char.ofNat 160)
  else
    match e.toList with
    | '#' :: 'x' :: ds =>
      if ds.isEmpty then none
      else (ds.foldl (fun acc c => do
              let a ← acc
              let h ← hexVal c
              pure (a * 16 + h)) (some 0)).map Char.ofNat
    | '#' :: ds =>
      if ¬ ds.isEmpty ∧ ds.all Char.isDigit then some (Char.ofNat (digitsToNat ds))
      else none
    | _ => none

/-- Scanner for `html.unescape`: replace `&body;` sequences whose body is
a recognized entity; leave everything else. -/
def htmlUnescapeGo : Nat → List Char → List Char
  | 0, cs => cs
  | fuel + 1, cs =>
    match cs with
    | [] => []
    | '&' :: rest =>
      let ent := rest.takeWhile (· ≠ ';')
      (match rest.dropWhile (· ≠ ';') with
       | ';' :: after =>
         (match entityChar (String.mk ent) with
          | some c => c :: htmlUnescapeGo fuel after
          | none => '&' :: htmlUnescapeGo fuel rest)
       | _ => '&' :: htmlUnescapeGo fuel rest)
    | c :: rest => c :: htmlUnescapeGo fuel rest

/-- Python `html.unescape` (see `htmlUnescapeGo`). -/
def htmlUnescape (s : String) : String :=
  String.mk (htmlUnescapeGo (s.length + 1) s.toList)

/-- Scanner for `re.sub(r'<[^>]+>', '', text)`: drop every `<`…`>` span
with a non-empty body of non-`>` characters. -/
def removeTagsGo : Nat → List Char → List Char
  | 0, cs => cs
  | fuel + 1, cs =>
    match cs with
    | [] => []
    | '<' :: rest =>
      let inside := rest.takeWhile (· ≠ '>')
      (match rest.dropWhile (· ≠ '>') with
       | _ :: after =>
         if inside.isEmpty then '<' :: removeTagsGo fuel rest
         else removeTagsGo fuel after
       | [] => '<' :: removeTagsGo fuel rest)
    | c :: rest => c :: removeTagsGo fuel rest

/-- Scanner for `re.sub(r'&[a-zA-Z0-9#]+;', '', text)`. -/
def removeEntitiesGo : Nat → List Char → List Char
  | 0, cs => cs
  | fuel + 1, cs =>
    match cs with
    | [] => []
    | '&' :: rest =>
      let body := rest.takeWhile fun c => c.isAlphanum || c = '#'
      (match rest.drop body.length with
       | ';' :: after =>
         if body.isEmpty then '&' :: removeEntitiesGo fuel rest
         else removeEntitiesGo fuel after
       | _ => '&' :: removeEntitiesGo fuel rest)
    | c :: rest => c :: removeEntitiesGo fuel rest

/-- `EmailTextSanitizer._remove_html_tags`. -/
def _remove_html_tags (s : String) : String :=
  let s1 := String.mk (removeTagsGo (s.length + 1) s.toList)
  String.mk (removeEntitiesGo (s1.length + 1) s1.toList)

/-- Pending-newline emitter for `re.sub(r'\n\x7b3,\x7d', '\n\n', ...)`:
maximal runs of three or more newlines collapse to exactly two. -/
def emitNl (n : Nat) : List Char :=
  if n ≥ 3 then ['\n', '\n'] else List.replicate n '\n'

/-- Scanner for the newline-collapsing substitution, carrying the length
of the current newline run. -/
def collapseNlGo : Nat → List Char → List Char
  | n, [] => emitNl n
  | n, '\n' :: rest => collapseNlGo (n + 1) rest
  | n, c :: rest => emitNl n ++ c :: collapseNlGo 0 rest

/-- Run flush for `re.sub(r'[ \t]\x7b2,\x7d', ' ', ...)`: a run of two or
more spaces/tabs becomes one space; a single space or tab is kept as is.
The run is carried in reverse. -/
def flushSp (run : List Char) : List Char :=
  if run.length ≥ 2 then [' '] else run.reverse

/-- Scanner for the space/tab-collapsing substitution. -/
def collapseSpGo : List Char → List Char → List Char
  | run, [] => flushSp run
  | run, c :: rest =>
    if c = ' ' ∨ c = '\t' then collapseSpGo (c :: run) rest
    else flushSp run ++ c :: collapseSpGo [] rest

/-- Scanner for `re.sub(r'^\s+|\s+$', '', text, flags=re.MULTILINE)`.
At a line start, `^\s+` removes the maximal whitespace run.  Elsewhere,
`\s+$` removes the longest whitespace prefix of the maximal run that ends
at a line end (before a `\n` inside the run, or at end of input); when no
such prefix exists the character is kept.  The Boolean argument tracks
whether the current position follows a newline (or is the start). -/
def lineTrimGo : Nat → Bool → List Char → List Char
  | 0, _, cs => cs
  | fuel + 1, atLS, cs =>
    match cs with
    | [] => []
    | c :: rest =>
      if atLS ∧ pyIsWs c then
        let run := cs.takeWhile pyIsWs
        lineTrimGo fuel ((run.getLastD ' ') = '\n') (cs.dropWhile pyIsWs)
      else if pyIsWs c then
        let run := cs.takeWhile pyIsWs
        let after := cs.dropWhile pyIsWs
        if after.isEmpty then []
        else
          match findLastIdx (· = '\n') run with
          | some j =>
            if 1 ≤ j then lineTrimGo fuel ((run.getD (j - 1) ' ') = '\n') (run.drop j ++ after)
            else c :: lineTrimGo fuel (c = '\n') rest
          | none => c :: lineTrimGo fuel (c = '\n') rest
      else c :: lineTrimGo fuel false rest

/-- Scanner for `re.sub(r'\r\n', '\n', ...)`: replace each CRLF pair. -/
def replaceCrLf : List Char → List Char
  | [] => []
  | '\r' :: '\n' :: rest => '\n' :: replaceCrLf rest
  | c :: rest => c :: replaceCrLf rest

/-- `EmailTextSanitizer._clean_formatting`: the five cleaning
substitutions in source order (CRLF normalization, CR conversion, newline
collapsing, space/tab collapsing, per-line trimming). -/
def _clean_formatting (s : String) : String :=
  let s1 := replaceCrLf s.toList
  let s2 := s1.map fun c => if c = '\r' then '\n' else c
  let s3 := collapseNlGo 0 s2
  let s4 := collapseSpGo [] s3
  String.mk (lineTrimGo (s4.length + 1) true s4)

/-- Existence semantics of `re.search(openTag + r'[^>]*>.*?' + closeTag, text,
re.IGNORECASE | re.DOTALL)`: an occurrence of the opening tag, a following
`>`, and the closing tag somewhere after it.  Checking the first opening
occurrence suffices: any later occurrence sees a subset of the text. -/
def tagPairMatch (openTag closeTag : String) (s : String) : Bool :=
  let cs := (asciiLower s).toList
  match findSeqIdx openTag.toList cs with
  | none => false
  | some i =>
    match (cs.drop (i + openTag.length)).dropWhile (· ≠ '>') with
    | _ :: restAfterGt => containsSeq closeTag.toList restAfterGt
    | [] => false

/-- Existence semantics of `re.search(first + r'.*' + second, text,
re.IGNORECASE | re.DOTALL)`. -/
def seqThenSeq (first second : String) (s : String) : Bool :=
  let cs := (asciiLower s).toList
  match findSeqIdx first.toList cs with
  | none => false
  | some i => containsSeq second.toList (cs.drop (i + first.length))

/-- The character class `[<>\x7b\x7d\[\]();'"`]` of the special-character
check (apostrophe and backtick written via code points). -/
def specialChars : List Char :=
  ['<', '>', '\x7b', '\x7d', '[', ']', '(', ')', ';', Char.ofNat 39, '"',
   Char.ofNat 96]

/-- Count of special characters in a text. -/
def specialCharCount (s : String) : Nat :=
  (s.toList.filter fun c => specialChars.contains c).length

/-- `EmailTextSanitizer._check_security_patterns`.  The issue strings
quote the source regexes; the ratio issue omits the interpolated
percentage (float formatting is not modelled, and no claim reads it). -/
def _check_security_patterns (text : String) : List String :=
  let patternIssues :=
    (if tagPairMatch "<script" "</script>" text then
       ["Suspicious pattern detected: <script[^>]*>.*?</script>"] else []) ++
    (if strContainsSub (asciiLower text) "javascript:" then
       ["Suspicious pattern detected: javascript:"] else []) ++
    (if seqThenSeq "data:" "base64" text then
       ["Suspicious pattern detected: data:.*base64"] else []) ++
    (if seqThenSeq "<!--" "-->" text then
       ["Suspicious pattern detected: <!--.*?-->"] else []) ++
    (if tagPairMatch "<iframe" "</iframe>" text then
       ["Suspicious pattern detected: <iframe[^>]*>.*?</iframe>"] else [])
  let specialFrac : ℚ := (specialCharCount text : ℚ) / (text.length : ℚ)
  patternIssues ++
    (if specialFrac > 0.1 then ["High ratio of special characters"] else [])

/-- Word character for the `\b` boundary ( `[a-zA-Z0-9_]` ). -/
def isWordChar (c : Char) : Bool :=
  c.isAlphanum || c = '_'

/-- Scanner for `re.search(r'\b' + w + r'\b', text, re.IGNORECASE)` where
`w` is a purely alphabetic keyword: an occurrence with non-word characters
(or edges) on both sides.  `prev` is the preceding character. -/
def hasWordAux (wl : List Char) : Option Char → List Char → Bool
  | _, [] => false
  | prev, c :: rest =>
    (wl.isPrefixOf (c :: rest)
      && (match prev with
          | some p => ¬ isWordChar p
          | none => true)
      && (match (c :: rest).drop wl.length with
          | d :: _ => ¬ isWordChar d
          | [] => true))
    || hasWordAux wl (some c) rest

/-- Case-insensitive whole-word search. -/
def hasWordCI (w text : String) : Bool :=
  hasWordAux (asciiLower w).toList none (asciiLower text).toList

/-- Existence semantics of the currency regex
`\$\s*\d+(?:,\d\x7b3\x7d)*(?:\.\d\x7b2\x7d)?`: a dollar sign whose
following whitespace run is followed by a digit (the optional groups never
affect existence). -/
def hasDollarAux : List Char → Bool
  | [] => false
  | '$' :: rest =>
    (match rest.dropWhile pyIsWs with
     | c :: _ => c.isDigit
     | [] => false) || hasDollarAux rest
  | _ :: rest => hasDollarAux rest

def hasDollarAmount (text : String) : Bool :=
  hasDollarAux text.toList

/-- Tail matcher for `(?:\.\d\x7b2\x7d)?\s*dollars?` (both the
consume-and-skip alternatives of the optional group). -/
def matchTailDollars (cs : List Char) : Bool :=
  let starts : List (List Char) :=
    match cs with
    | '.' :: a :: b :: rest => if a.isDigit ∧ b.isDigit then [rest, cs] else [cs]
    | _ => [cs]
  starts.any fun cs2 => "dollar".toList.isPrefixOf (cs2.dropWhile pyIsWs)

/-- Matcher for `(?:,\d\x7b3\x7d)*` followed by the dollars tail. -/
def matchGroupsDollars : List Char → Bool
  | ',' :: a :: b :: c :: rest =>
    matchTailDollars (',' :: a :: b :: c :: rest) ||
      (a.isDigit && b.isDigit && c.isDigit && matchGroupsDollars rest)
  | cs => matchTailDollars cs

/-- Existence semantics of
`\d+(?:,\d\x7b3\x7d)*(?:\.\d\x7b2\x7d)?\s*dollars?` (case-insensitive):
since every continuation after `\d+` starts with a non-digit, the digit
run is consumed maximally. -/
def hasDollarsWordAux : List Char → Bool
  | [] => false
  | c :: rest =>
    (c.isDigit && matchGroupsDollars ((c :: rest).dropWhile Char.isDigit))
      || hasDollarsWordAux rest

def hasDollarsWord (text : String) : Bool :=
  hasDollarsWordAux (asciiLower text).toList

/-- The billing keyword list of `_validate_content_structure`. -/
def billingKeywords : List String :=
  ["invoice", "bill", "charge", "cost", "price", "total", "amount",
   "materials", "labor", "work", "repair", "service", "unit"]

/-- Python `text.split(sep)` for a one-character separator. -/
def splitOnChar (sep : Char) : List Char → List (List Char)
  | [] => [[]]
  | c :: rest =>
    let r := splitOnChar sep rest
    if c = sep then [] :: r
    else
      match r with
      | h :: t => (c :: h) :: t
      | [] => [[c]]

/-- `EmailTextSanitizer._validate_content_structure`: warnings only —
currency presence, keyword count, line-structure checks. -/
def _validate_content_structure (text : String) : List String :=
  let has_currency := hasDollarAmount text || hasDollarsWord text
  let w1 := if ¬ has_currency then
              ["No currency amounts detected - this may not be billing text"] else []
  let keyword_count := (billingKeywords.filter fun k => hasWordCI k text).length
  let w2 := if keyword_count < 2 then ["Few billing-related keywords detected"] else []
  let lines := ((splitOnChar '\n' text.toList).map fun l =>
                  pyStrip (String.mk l)).filter (· ≠ "")
  let w3 := if lines.length < 3 then
              ["Text has very few lines - typical billing emails have multiple line items"]
            else []
  let long_lines := lines.filter fun l => l.length > 200
  let w4 := if ¬ long_lines.isEmpty then
              [toString long_lines.length ++
               " extremely long lines detected - might have formatting issues"]
            else []
  w1 ++ w2 ++ w3 ++ w4

/-- Result dict of `EmailTextSanitizer.sanitize_email_text`. -/
structure SanitizeResult where
  sanitized_text : String
  is_valid : Bool
  warnings : List String
  errors : List String
  original_length : Nat
  sanitized_length : Nat
deriving DecidableEq

def tooLongMsg (n : Nat) : String :=
  "Text too long (" ++ toString n ++ " chars). Maximum allowed: 10000"

def tooShortMsg (n : Nat) : String :=
  "Text too short (" ++ toString n ++ " chars). Minimum required: 20"

/-- `EmailTextSanitizer.sanitize_email_text`.  Control flow as in source:
empty input and under-length input return invalid immediately; over-length
input fails in strict mode and is truncated (with the error kept in the
list) otherwise; security issues stop processing only in strict mode;
content-structure checks add warnings only; a final length check guards
against over-aggressive cleaning. -/
def sanitize_email_text (text0 : String) (strict_mode : Bool) : SanitizeResult :=
  let origLen := text0.length
  if text0 = "" then
    { sanitized_text := "", is_valid := false, warnings := [],
      errors := ["Input text is empty or not a string"],
      original_length := origLen, sanitized_length := 0 }
  else
    let tooLong := text0.length > 10000
    if tooLong ∧ strict_mode then
      { sanitized_text := "", is_valid := false, warnings := [],
        errors := [tooLongMsg text0.length],
        original_length := origLen, sanitized_length := 0 }
    else
      let text1 := if tooLong then String.mk (text0.toList.take 10000) else text0
      let errs1 := if tooLong then [tooLongMsg text0.length] else []
      let warns1 := if tooLong then ["Text truncated to maximum length"] else []
      if text1.length < 20 then
        { sanitized_text := "", is_valid := false, warnings := warns1,
          errors := errs1 ++ [tooShortMsg text1.length],
          original_length := origLen, sanitized_length := 0 }
      else
        let secIssues := _check_security_patterns text1
        let errs2 := errs1 ++ secIssues
        if ¬ secIssues.isEmpty ∧ strict_mode then
          { sanitized_text := "", is_valid := false, warnings := warns1,
            errors := errs2, original_length := origLen, sanitized_length := 0 }
        else
          let text2 := _clean_formatting (_remove_html_tags (htmlUnescape text1))
          let warns2 := warns1 ++ _validate_content_structure text2
          if (pyStrip text2).length < 20 then
            { sanitized_text := "", is_valid := false, warnings := warns2,
              errors := errs2 ++ ["Text became too short after sanitization"],
              original_length := origLen, sanitized_length := 0 }
          else
            { sanitized_text := pyStrip text2, is_valid := true,
              warnings := warns2, errors := errs2,
              original_length := origLen,
              sanitized_length := (pyStrip text2).length }
/-- Literal segment 0 of the matching prompt template. -/
def promptSeg0 : String :=
  "You are an expert at matching construction billing emails to work order data for a general contractor.\n\nTASK: Analyze the email billing text and find the best matches from the available work orders using a blended confidence scoring system.\n\nEMAIL BILLING TEXT:\n"

/-- Literal segment 1 of the matching prompt template. -/
def promptSeg1 : String :=
  "\n\nAVAILABLE WORK ORDERS ("

/-- Literal segment 2 of the matching prompt template. -/
def promptSeg2 : String :=
  " alpha-numeric work orders for special clients):\n"

/-- Literal segment 3 of the matching prompt template. -/
def promptSeg3 : String :=
  "\n\nCONFIDENCE SCORING SYSTEM:\nUse these weighted signals to calculate blended confidence scores:\n\nEXACT MATCH SIGNALS (Max 50 points, only highest applies):\n• Exact unit match: 50 points → \"Unit 5996\" matches \"Unit 5996\"\n• Exact address match: 50 points → \"5878 Southern Ave\" matches \"5878 Southern Ave\" \n• Building identifier: 45 points → \"Building A\" matches \"Building A\"\n• Property name match: 45 points → \"New Endeavor\" matches \"New Endeavor Women\x27s Shelter\"\n\nAMOUNT SIGNALS (Additive):\n• Exact amount: +30 points → $450.00 = $450.00\n• Close amount (10-15% diff): +20 points → $450 ≈ $425-475  \n• Rough amount (20-30% diff): +10 points → $450 ≈ $350-550\n\nJOB TYPE SIGNALS (Additive):\n• Exact job description: +15 points → \"drain backup\" matches \"back up in the unit\"\n• Job category match: +10 points → \"plumbing\" matches \"Plumbing There is a back up\"  \n• General work type: +5 points → \"repair\" matches \"repaired, plastered and painted\"\n\nLOCATION SIGNALS (Additive):\n• Address fragment: +15 points → \"56th St\" partially matches \"5878 Southern Ave\"\n• General area: +5 points → \"SE DC\" matches \"Washington DC 20019\"\n\nCONFIDENCE BANDS:\n• 85-100%: Very high confidence (auto-accept quality)\n• 70-84%: High confidence (likely correct)\n• 50-69%: Medium confidence (review recommended)\n• Below 50%: Low confidence (manual review required)\n\nEXAMPLE SCORING:\nEmail: \"Unit 5996: plumbing repair $450\"  \nWork Order: Unit \"5996\", \"Plumbing backup\", \"$450.00\"\nScore: 50 (exact unit) + 30 (exact amount) + 15 (exact job) = 95%\n\nExpected matches to find: "

/-- Literal segment 4 of the matching prompt template. -/
def promptSeg4 : String :=
  "\n\nOUTPUT FORMAT:\nReturn a JSON object with this exact structure:\n\n\x7b\n  \"matches\": [\n    \x7b\n      \"email_item\": \"extracted billing line item from email\",\n      \"work_order_id\": \"WO123\",\n      \"confidence\": 85,\n      \"evidence\": \x7b\n        \"primary_signals\": [\"exact unit match: 5996\"],\n        \"supporting_signals\": [\"exact amount: $450\", \"job type: plumbing\"],\n        \"score_breakdown\": \"50 (unit) + 30 (amount) + 15 (job) = 95%\"\n      \x7d,\n      \"amount_comparison\": \x7b\n        \"email_amount\": 450.00,\n        \"wo_amount\": 450.00,\n        \"difference\": 0.00\n      \x7d\n    \x7d\n  ],\n  \"unmatched_items\": [\"billing items that couldn\x27t be matched with sufficient confidence\"],\n  \"summary\": \"X high-confidence matches found, Y items need manual review\"\n\x7d\n\nIMPORTANT INSTRUCTIONS:\n1. Extract ALL billing line items from the email (look for amounts, unit numbers, job descriptions)\n2. Calculate blended confidence scores by combining multiple signals\n3. Only return matches with confidence ≥ 50%\n4. Show your scoring logic in the evidence.score_breakdown field\n5. If no good matches exist, include items in unmatched_items\n6. Be thorough but realistic with confidence scoring\n\nBegin analysis:"

/-- `PromptBuilder.build_matching_prompt`: deterministic rendering of the
instruction payload — the fixed template with the email text, the
candidate count, the serialized candidate set and the expected match
count spliced in.  Inherits `format_work_orders`' `Except` (a malformed
candidate row would raise through the f-string). -/
def build_matching_prompt (email_text : String)
    (work_orders : List (List (String × Value))) (expected_count : Nat) :
    Except String String := do
  let wo_summary ← format_work_orders work_orders
  .ok (promptSeg0 ++ email_text ++ promptSeg1 ++ toString work_orders.length ++
       promptSeg2 ++ wo_summary ++ promptSeg3 ++ toString expected_count ++
       promptSeg4)

/-! ## Matching pipeline (`AnthropicClient.find_matches`,
src/llm/anthropic_client.py 43-159)

The Gateway (`_make_api_call` with its retry loop) is an I/O boundary,
modelled as a function from the instruction payload to an optional
response text (`none` = all retries failed).  The run records whether an
instruction payload was built and whether the gateway was invoked, so
fail-fast properties are expressible. -/

/-- Dict form of a `SanitizeResult` (the `sanitization_result` debug
payload). -/
def sanitizeResultToValue (r : SanitizeResult) : Value :=
  vDict [("sanitized_text", vStr r.sanitized_text),
         ("is_valid", vBool r.is_valid),
         ("warnings", vList (r.warnings.map vStr)),
         ("errors", vList (r.errors.map vStr)),
         ("original_length", vInt r.original_length),
         ("sanitized_length", vInt r.sanitized_length)]

/-- Key update on a dict value (`result["success"] = True`).  Item
assignment on a non-dict would raise; unreachable here because the
validated payload is always a brace-delimited JSON object. -/
def vSetKey (v : Value) (k : String) (x : Value) : Value :=
  match v with
  | .vDict d => vDict (dictSet d k x)
  | _ => v

/-- Outcome of one `find_matches` run. -/
structure FindMatchesRun where
  result : Value
  prompt : Option String
  gatewayCalled : Bool

/-- `AnthropicClient.find_matches`.  Control flow: sanitize; on invalid
input return the failure dict without building a prompt or calling the
gateway; otherwise build the prompt (an exception there lands in the
generic handler), call the gateway, and either report gateway failure,
return the validated payload marked successful, or report the validation
error. -/
def find_matches (strict_mode save_debug : Bool)
    (gateway : String → Option String) (email_text : String)
    (work_orders : List (List (String × Value))) (expected_count : Nat) :
    FindMatchesRun :=
  let san := sanitize_email_text email_text strict_mode
  if ¬ san.is_valid then
    { result := vDict [("success", vBool false),
        ("error", vStr ("Input validation failed: " ++
                        String.intercalate "; " san.errors)),
        ("matches", vList []), ("unmatched_items", vList []),
        ("summary", vStr "Input validation failed"),
        ("sanitization_warnings", vList (san.warnings.map vStr))],
      prompt := none, gatewayCalled := false }
  else
    match build_matching_prompt san.sanitized_text work_orders expected_count with
    | .error e =>
      { result := vDict [("success", vBool false),
          ("error", vStr ("Anthropic client error: " ++ e)),
          ("matches", vList []), ("unmatched_items", vList []),
          ("summary", vStr "Processing failed")],
        prompt := none, gatewayCalled := false }
    | .ok prompt =>
      match gateway prompt with
      | none =>
        { result := vDict [("success", vBool false),
            ("error", vStr "Failed to get response from Claude API"),
            ("matches", vList []), ("unmatched_items", vList []),
            ("summary", vStr "API call failed")],
          prompt := some prompt, gatewayCalled := true }
      | some response =>
        let validation := validate_response response
        if pyTruthy ((vGet validation "success").getD vNull) then
          let parsed := (vGet validation "parsed").getD vNull
          let result1 := vSetKey parsed "success" (vBool true)
          let result2 :=
            if save_debug then
              vSetKey (vSetKey result1 "raw_response" (vStr response))
                "sanitization_result" (sanitizeResultToValue san)
            else result1
          { result := result2, prompt := some prompt, gatewayCalled := true }
        else
          { result := vDict [("success", vBool false),
              ("error", (vGet validation "error").getD
                          (vStr "Unknown validation error")),
              ("raw_response",
                if save_debug then (vGet validation "raw_response").getD
                                     (vStr response)
                else vNull),
              ("matches", vList []), ("unmatched_items", vList []),
              ("summary", vStr "Response validation failed")],
            prompt := some prompt, gatewayCalled := true }

/-- Reference definition, following the specification's words for
`parseAmount`: strip every character except digits, `.` and `-`; return
0.0 if the stripped string is empty, exactly `"-"`, or exactly `"."`, or
fails numeric parse; otherwise the parsed number. -/
def parseAmountSpec (raw : String) : ℚ :=
  let stripped := String.mk (raw.toList.filter fun c => c.isDigit || c = '.' || c = '-')
  if stripped = "" ∨ stripped = "-" ∨ stripped = "." then 0
  else
    match pyFloatOfStr stripped with
    | some q => q
    | none => 0

/-- The raw response of the C1 scenario: a JSON payload with one
well-formed match and one match missing `confidence`. -/
def c1Payload : String :=
  "\x7b\"matches\": [\x7b\"email_item\": \"a\", \"work_order_id\": \"W1\", " ++
  "\"confidence\": 80, \"evidence\": \x7b\x7d\x7d, " ++
  "\x7b\"email_item\": \"b\", \"work_order_id\": \"W2\", " ++
  "\"evidence\": \x7b\x7d\x7d], \"unmatched_items\": [], \"summary\": \"ok\"\x7d"

/-- Candidate batch for the C9 witness. -/
def woW : List (List (String × Value)) :=
  [[("WO #", vStr "A1"), ("Total", vStr "100"),
    ("Location", vStr "Loc"), ("Description", vStr "Desc")]]

/-- Free text with no currency-like content for the C4 counterexample. -/
def c4Text : String := "please repair the door in unit five thank you kindly"


/-! # Theorems

One theorem (plus witness/counterexample where required) per claim of the
specification review. -/

/-- Helper: filtering after `dropWhile` drops nothing extra when the
dropped prefix would have been filtered out anyway. -/
theorem filter_dropWhile_of_imp (p q : Char → Bool) (l : List Char)
    (h : ∀ a, q a = true → p a = false) :
    (l.dropWhile q).filter p = l.filter p := by
  induction l with
  | nil => rfl
  | cons c rest ih =>
    by_cases hq : q c = true
    · rw [List.dropWhile_cons_of_pos hq, ih, List.filter_cons_of_neg]
      simp [h c hq]
    · rw [List.dropWhile_cons_of_neg hq]

/-- Helper: whitespace characters are not kept by the amount filter. -/
theorem ws_not_amount_char (c : Char) (h : pyIsWs c = true) :
    (c.isDigit || c = '.' || c = '-') = false := by
  simp only [pyIsWs, decide_eq_true_eq, Bool.or_eq_true] at h
  rcases h with h | h | h | h | h | h <;> subst h <;> rfl

/-- Helper: the amount filter ignores surrounding whitespace. -/
theorem stripAmountChars_pyStrip (s : String) :
    WorkOrder.stripAmountChars (pyStrip s) = WorkOrder.stripAmountChars s := by
  unfold WorkOrder.stripAmountChars pyStrip
  congr 1
  show List.filter _ (((s.toList.dropWhile pyIsWs).reverse.dropWhile pyIsWs).reverse) = _
  rw [List.filter_reverse, filter_dropWhile_of_imp _ _ _ ws_not_amount_char,
      List.filter_reverse, List.reverse_reverse,
      filter_dropWhile_of_imp _ _ _ ws_not_amount_char]


/-- C5: `get_clean_amount` (the candidate record's clean-amount
derivation) is total and agrees with the specification's `parseAmount`
formula on every input string; in particular it maps `"$1,234.56"` to
1234.56 and `""`, `"-"`, `"abc"` to 0. -/
theorem c5_parse_amount_total_and_examples :
    (∀ wo : WorkOrder, wo.get_clean_amount = parseAmountSpec wo.total) ∧
    (WorkOrder.mk "" "$1,234.56" "" "" []).get_clean_amount = 1234.56 ∧
    (WorkOrder.mk "" "" "" "" []).get_clean_amount = 0 ∧
    (WorkOrder.mk "" "-" "" "" []).get_clean_amount = 0 ∧
    (WorkOrder.mk "" "abc" "" "" []).get_clean_amount = 0 := by
  have hagree : ∀ wo : WorkOrder, wo.get_clean_amount = parseAmountSpec wo.total := by
    intro wo
    unfold WorkOrder.get_clean_amount parseAmountSpec
    by_cases h : wo.total = ""
    · simp [h, WorkOrder.stripAmountChars]
    · rw [if_neg h, stripAmountChars_pyStrip]
      rfl
  refine ⟨hagree, ?_, by rfl, by rfl, by rfl⟩
  have hclean : WorkOrder.stripAmountChars (pyStrip "$1,234.56") = "1234.56" := by decide
  have hparse : pyFloatOfStr "1234.56" = some (1234.56 : ℚ) := by
    have hp : pyFloatParts (pyStrip "1234.56").toList =
        some ⟨false, 1234, 56, 2, false, 0⟩ := by decide
    rw [pyFloatOfStr, hp]
    norm_num [DecParts.toRat]
  show WorkOrder.get_clean_amount _ = _
  rw [WorkOrder.get_clean_amount]
  simp only [hclean, hparse]
  rw [if_neg (by decide : ¬("$1,234.56" = "")),
      if_neg (by decide : ¬("1234.56" = "" ∨ "1234.56" = "-" ∨ "1234.56" = "."))]

/-- C6 counterexample: for a negative candidate amount the code's
percentage (absolute value of the quotient) differs from the claim's
formula `|difference| / candidate amount × 100`: at email 0, candidate
-100, difference 50 the code yields 50 while the claimed formula yields
-50. -/
theorem c6_counterexample :
    AmountComparison.percentage_difference ⟨0, -100, 50⟩ = some 50 ∧
    |(50 : ℚ)| / (-100 : ℚ) * 100 = -50 ∧
    (50 : ℚ) ≠ -50 := by
  refine ⟨?_, by norm_num, by norm_num⟩
  rw [AmountComparison.percentage_difference]
  norm_num
  rw [abs_of_nonneg (by norm_num)]
  norm_num

/-- C6 (amended): the derived queries of `AmountComparison` satisfy:
percentage difference is `|difference| / |candidate amount| × 100` (the
code takes the absolute value of the quotient, so the denominator's sign
is discarded), infinite (`none`) when the candidate amount is 0 and the
email amount is not, and 0 when both are 0; `is_exact_match` holds iff
`|difference| < 0.01`; `is_close_match` holds iff the percentage is
finite and at most 15.0. -/
theorem c6_percentage_and_predicates (c : AmountComparison) :
    c.percentage_difference =
      (if c.wo_amount = 0 then (if c.email_amount = 0 then some 0 else none)
       else some (|c.difference| / |c.wo_amount| * 100)) ∧
    (c.is_exact_match = true ↔ |c.difference| < 0.01) ∧
    (c.is_close_match = true ↔
      ∃ p, c.percentage_difference = some p ∧ p ≤ 15.0) := by
  refine ⟨?_, ?_, ?_⟩
  · rw [AmountComparison.percentage_difference]
    by_cases hw : c.wo_amount = 0
    · by_cases he : c.email_amount = 0 <;> simp [hw, he]
    · simp [hw, abs_div]
  · simp [AmountComparison.is_exact_match]
  · rw [AmountComparison.is_close_match]
    cases h : c.percentage_difference with
    | none => simp [h]
    | some p => simp [h]

/-- C3 counterexample: a row whose identifier field is present but `None`
does not fall back to the empty string — `str(None)` is `"None"`. -/
theorem c3_counterexample :
    (WorkOrder.from_sheets_row [("WO #", Value.vNull)]).wo_id = "None" ∧
    ("None" : String) ≠ "" :=
  ⟨by rfl, by decide⟩

/-- C3 (amended): `from_sheets_row` never raises — for every field-keyed
row it returns the record whose four text fields are the stripped `str()`
renderings of the row values; the empty-string fallback applies exactly
when the key is absent (a present `None` or wrong-typed value is rendered
by `str()`, e.g. `None` becomes `"None"`). -/
theorem c3_from_sheets_row_total (row : List (String × Value)) :
    WorkOrder.from_sheets_row row =
      { wo_id := pyStrip (pyStr (dictGetD row "WO #" (vStr "")))
        total := pyStrip (pyStr (dictGetD row "Total" (vStr "")))
        location := pyStrip (pyStr (dictGetD row "Location" (vStr "")))
        description := pyStrip (pyStr (dictGetD row "Description" (vStr "")))
        raw_data := row } ∧
    (dictFind row "WO #" = none → (WorkOrder.from_sheets_row row).wo_id = "") ∧
    (dictFind row "Total" = none → (WorkOrder.from_sheets_row row).total = "") ∧
    (dictFind row "Location" = none → (WorkOrder.from_sheets_row row).location = "") ∧
    (dictFind row "Description" = none →
      (WorkOrder.from_sheets_row row).description = "") := by
  refine ⟨rfl, ?_, ?_, ?_, ?_⟩ <;>
    · intro h
      simp [WorkOrder.from_sheets_row, dictGetD, h, pyStr, pyStrip]

/-- C3 witness: the amended theorem applied to the empty row. -/
theorem c3_witness :
    (WorkOrder.from_sheets_row []).wo_id = "" ∧
    (WorkOrder.from_sheets_row []).total = "" ∧
    (WorkOrder.from_sheets_row []).location = "" ∧
    (WorkOrder.from_sheets_row []).description = "" :=
  ⟨(c3_from_sheets_row_total []).2.1 rfl, (c3_from_sheets_row_total []).2.2.1 rfl,
   (c3_from_sheets_row_total []).2.2.2.1 rfl, (c3_from_sheets_row_total []).2.2.2.2 rfl⟩

/-- C2: every match entry that the reconciler converts gets an integer
confidence in [0, 100]: a coercible confidence (int, float, numeric
string, bool) is truncated to an integer and clamped; a non-coercible or
missing confidence becomes 0 without the entry being dropped. -/
theorem c2_confidence_clamped (wos : List WorkOrder)
    (md : List (String × Value)) (m : Match)
    (h : MatchingResult.convertMatch wos (vDict md) = some m) :
    (0 ≤ m.confidence ∧ m.confidence ≤ 100) ∧
    (∀ q, pyFloatVal (dictGetD md "confidence" (vInt 0)) = some q →
        m.confidence = max 0 (min 100 (ratTrunc q))) ∧
    (pyFloatVal (dictGetD md "confidence" (vInt 0)) = none → m.confidence = 0) ∧
    (dictFind md "confidence" = none → m.confidence = 0) := by
  have hm : m.confidence = MatchingResult.confidenceFrom md := by
    simp only [MatchingResult.convertMatch, Option.some.injEq] at h
    rw [← h]
  refine ⟨?_, ?_, ?_, ?_⟩
  · rw [hm, MatchingResult.confidenceFrom]
    cases hp : pyFloatVal (dictGetD md "confidence" (vInt 0)) with
    | none => exact ⟨le_refl 0, by norm_num⟩
    | some q =>
      exact ⟨le_max_left 0 _, max_le (by norm_num) (min_le_left 100 _)⟩
  · intro q hq
    rw [hm, MatchingResult.confidenceFrom, hq]
  · intro hq
    rw [hm, MatchingResult.confidenceFrom, hq]
  · intro hq
    rw [hm, MatchingResult.confidenceFrom]
    rw [dictGetD, hq]
    decide

/-- C2 witness: the theorem applied to an entry with the out-of-range
confidence 150, which is clamped to 100. -/
theorem c2_witness :
    0 ≤ (Match.mk "" "" 100 ⟨[], [], "", []⟩ ⟨0, 0, 0⟩ none).confidence ∧
    (Match.mk "" "" 100 ⟨[], [], "", []⟩ ⟨0, 0, 0⟩ none).confidence ≤ 100 :=
  (c2_confidence_clamped [] [("confidence", vInt 150)]
    (Match.mk "" "" 100 ⟨[], [], "", []⟩ ⟨0, 0, 0⟩ none) (by rfl)).1

/-- C7: for every upstream failure signal — a payload whose `success` is
falsy (gateway failure dicts and validator error dicts alike), carrying a
string error (or none, in which case the default applies) — the
reconciler produces `success = false`, an empty match list, an empty
unmatched list and the propagated error string; the payload's `matches`
are never reconciled. -/
theorem c7_failure_result (api : List (String × Value)) (wos : List WorkOrder)
    (e : String)
    (hfail : pyTruthy (dictGetD api "success" (vBool false)) = false)
    (herr : dictGetD api "error" (vStr "Unknown error") = vStr e) :
    MatchingResult.from_api_response api wos =
      .ok { matches' := [], unmatched_items := vList [],
            summary := vStr "Matching failed", success := false,
            error := vStr e,
            raw_response := dictGetD api "raw_response" vNull } := by
  rw [MatchingResult.from_api_response]
  simp [hfail, herr]

/-- C7 witness: the theorem applied to a failure payload that even
carries a (ignored) match entry. -/
theorem c7_witness :
    MatchingResult.from_api_response
        [("error", vStr "boom"), ("matches", vList [vDict []])] [] =
      .ok { matches' := [], unmatched_items := vList [],
            summary := vStr "Matching failed", success := false,
            error := vStr "boom", raw_response := vNull } :=
  c7_failure_result [("error", vStr "boom"), ("matches", vList [vDict []])]
    [] "boom" (by rfl) (by rfl)

/-- C8: a validated (dict) match entry whose cleaned `work_order_id`
matches no candidate still yields a `Match` — kept, not dropped, with the
optional back-reference absent and confidence/evidence computed exactly
as for resolvable entries. -/
theorem c8_unresolved_id_kept (api : List (String × Value))
    (wos : List WorkOrder) (md : List (String × Value))
    (hs : pyTruthy (dictGetD api "success" (vBool false)) = true)
    (hm : dictGetD api "matches" (vList []) = vList [vDict md])
    (hid : ∀ wo ∈ wos, wo.wo_id ≠
      MatchingResult.clean_wo_id (dictGetD md "work_order_id" (vStr ""))) :
    MatchingResult.from_api_response api wos =
      .ok { matches' := [{
              email_item := pyStr (dictGetD md "email_item" (vStr ""))
              work_order_id :=
                MatchingResult.clean_wo_id (dictGetD md "work_order_id" (vStr ""))
              confidence := MatchingResult.confidenceFrom md
              evidence := MatchingResult.evidenceFrom md
              amount_comparison := MatchingResult.amountCompFrom md
              work_order := none }]
            unmatched_items := dictGetD api "unmatched_items" (vList [])
            summary := dictGetD api "summary" (vStr "Analysis complete")
            success := true
            error := vNull
            raw_response := dictGetD api "raw_response" vNull } := by
  have hlook : MatchingResult.lookupWO wos
      (MatchingResult.clean_wo_id (dictGetD md "work_order_id" (vStr ""))) = none := by
    rw [MatchingResult.lookupWO, List.find?_eq_none]
    intro wo hwo
    simp only [decide_eq_true_eq]
    exact hid wo (List.mem_reverse.mp hwo)
  rw [MatchingResult.from_api_response]
  simp only [hs, Bool.not_true, Bool.false_eq_true, if_false, hm]
  simp [pyIter, MatchingResult.convertMatch, hlook]

/-- C8 witness: the theorem applied to a success payload with one match
whose decorated id `WO#123` resolves to no candidate (the only candidate
is `999`). -/
theorem c8_witness :
    MatchingResult.from_api_response
        [("success", vBool true),
         ("matches", vList [vDict [("email_item", vStr "item"),
                                   ("work_order_id", vStr "WO#123"),
                                   ("confidence", vInt 80),
                                   ("evidence", vDict [])]])]
        [WorkOrder.mk "999" "" "" "" []] =
      .ok { matches' := [{
              email_item := "item"
              work_order_id := "123"
              confidence := 80
              evidence := ⟨[], [], "", []⟩
              amount_comparison := ⟨0, 0, 0⟩
              work_order := none }]
            unmatched_items := vList []
            summary := vStr "Analysis complete"
            success := true
            error := vNull
            raw_response := vNull } :=
  c8_unresolved_id_kept
    [("success", vBool true),
     ("matches", vList [vDict [("email_item", vStr "item"),
                               ("work_order_id", vStr "WO#123"),
                               ("confidence", vInt 80),
                               ("evidence", vDict [])]])]
    [WorkOrder.mk "999" "" "" "" []]
    [("email_item", vStr "item"), ("work_order_id", vStr "WO#123"),
     ("confidence", vInt 80), ("evidence", vDict [])]
    (by rfl) (by rfl) (by decide)

/-- Shared helper: `validate_response` always returns either the success
dict or a dict whose first entry is an error message. -/
theorem validate_response_shape (s : String) :
    (∃ p, validate_response s = vDict [("success", vBool true), ("parsed", p)]) ∨
    (∃ e rest, validate_response s = vDict (("error", vStr e) :: rest)) := by
  rw [validate_response]
  cases hex : extractJsonSpan s with
  | none => exact .inr ⟨_, _, rfl⟩
  | some js =>
    cases hp : jsonParse js with
    | error e => simp only [hp]; exact .inr ⟨_, _, rfl⟩
    | ok parsed =>
      simp only [hp]
      cases htop : firstMissing requiredTopFields parsed with
      | error e => simp only [htop]; exact .inr ⟨_, _, rfl⟩
      | ok o =>
        cases o with
        | some f => simp only [htop]; exact .inr ⟨_, _, rfl⟩
        | none =>
          simp only [htop]
          cases hmv : pyGetAttr parsed "matches" (vList []) with
          | error e => simp only [hmv]; exact .inr ⟨_, _, rfl⟩
          | ok mv =>
            simp only [hmv]
            cases hit : pyIter mv with
            | error e => simp only [hit]; exact .inr ⟨_, _, rfl⟩
            | ok ms =>
              simp only [hit]
              cases hcm : checkMatches ms with
              | error e =>
                simp only [hcm]; exact .inr ⟨_, _, rfl⟩
              | ok o2 =>
                cases o2 with
                | some msg =>
                  simp only [hcm]; exact .inr ⟨_, _, rfl⟩
                | none =>
                  simp only [hcm]; exact .inl ⟨parsed, rfl⟩

/-- Shared helper: when `firstMissing` reports nothing missing, every
listed field is `in` the container. -/
theorem pyIn_all_of_firstMissing_none :
    ∀ (fs : List String) (c : Value), firstMissing fs c = .ok none →
      ∀ f ∈ fs, pyIn f c = .ok true := by
  intro fs
  induction fs with
  | nil => simp
  | cons g rest ih =>
    intro c h f hf
    rw [firstMissing] at h
    cases hg : pyIn g c with
    | error e => rw [hg] at h; exact absurd h (by simp)
    | ok b =>
      cases b with
      | false => rw [hg] at h; exact absurd h (by simp)
      | true =>
        rw [hg] at h
        rcases List.mem_cons.mp hf with rfl | hf'
        · exact hg
        · exact ih c h f hf'

/-- Shared helper: when the per-match loop passes, every entry has all
required fields. -/
theorem checkMatches_none_entry :
    ∀ (l : List Value), checkMatches l = .ok none →
      ∀ m ∈ l, firstMissing requiredMatchFields m = .ok none := by
  intro l
  induction l with
  | nil => simp
  | cons m0 rest ih =>
    intro h m hm
    rw [checkMatches] at h
    cases hfm : firstMissing requiredMatchFields m0 with
    | error e => simp [hfm] at h
    | ok o =>
      cases o with
      | some f => simp [hfm] at h
      | none =>
        simp only [hfm] at h
        cases hc : pyIndex m0 "confidence" with
        | error e => simp [hc] at h
        | ok cv =>
          simp only [hc] at h
          by_cases hn : ¬ (pyIsNumber cv ∧ confInRange cv)
          · rw [if_pos hn] at h; exact absurd h (by simp)
          · rw [if_neg hn] at h
            rcases List.mem_cons.mp hm with rfl | hm'
            · exact hfm
            · exact ih h m hm'

/-- C1 (amended): a match entry missing a required per-entry key fails
the WHOLE batch — whenever the parsed payload's iterated matches contain
an entry for which some required field is not present, `validate_response`
returns an error dict (and therefore no partial result with the remaining
matches). -/
theorem c1_missing_field_fails_batch (s js : String) (parsed mv m : Value)
    (ms : List Value) (f : String)
    (hex : extractJsonSpan s = some js)
    (hp : jsonParse js = .ok parsed)
    (hmv : pyGetAttr parsed "matches" (vList []) = .ok mv)
    (hit : pyIter mv = .ok ms)
    (hm : m ∈ ms)
    (hf : f ∈ requiredMatchFields)
    (hmiss : pyIn f m = .ok false) :
    ∃ e, vGet (validate_response s) "error" = some (vStr e) := by
  rw [validate_response, hex]
  simp only [hp]
  cases htop : firstMissing requiredTopFields parsed with
  | error e => simp only [htop]; exact ⟨_, rfl⟩
  | ok o =>
    cases o with
    | some g => simp only [htop]; exact ⟨_, rfl⟩
    | none =>
      simp only [htop, hmv, hit]
      cases hcm : checkMatches ms with
      | error e => simp only [hcm]; exact ⟨_, rfl⟩
      | ok o2 =>
        cases o2 with
        | some msg => simp only [hcm]; exact ⟨_, rfl⟩
        | none =>
          have hall := pyIn_all_of_firstMissing_none requiredMatchFields m
            (checkMatches_none_entry ms hcm m hm) f hf
          rw [hall] at hmiss
          exact absurd hmiss (by simp)


/-- C1 counterexample: on a response with one well-formed match and one
match missing `confidence`, the validator does NOT succeed with the
remaining match — it returns an error dict naming the missing field, and
no success flag is set. -/
theorem c1_counterexample :
    vGet (validate_response c1Payload) "error" =
      some (vStr "Missing required match field: confidence") ∧
    vGet (validate_response c1Payload) "success" = none :=
  ⟨by rfl, by rfl⟩

/-- C1 witness: the amended theorem applied to the concrete two-entry
payload. -/
theorem c1_witness :
    ∃ e, vGet (validate_response c1Payload) "error" = some (vStr e) :=
  c1_missing_field_fails_batch c1Payload c1Payload
    (vDict [("matches", vList
        [vDict [("email_item", vStr "a"), ("work_order_id", vStr "W1"),
                ("confidence", vInt 80), ("evidence", vDict [])],
         vDict [("email_item", vStr "b"), ("work_order_id", vStr "W2"),
                ("evidence", vDict [])]]),
      ("unmatched_items", vList []), ("summary", vStr "ok")])
    (vList
        [vDict [("email_item", vStr "a"), ("work_order_id", vStr "W1"),
                ("confidence", vInt 80), ("evidence", vDict [])],
         vDict [("email_item", vStr "b"), ("work_order_id", vStr "W2"),
                ("evidence", vDict [])]])
    (vDict [("email_item", vStr "b"), ("work_order_id", vStr "W2"),
            ("evidence", vDict [])])
    [vDict [("email_item", vStr "a"), ("work_order_id", vStr "W1"),
            ("confidence", vInt 80), ("evidence", vDict [])],
     vDict [("email_item", vStr "b"), ("work_order_id", vStr "W2"),
            ("evidence", vDict [])]]
    "confidence"
    (by rfl) (by rfl) (by rfl) (by rfl) (by simp) (by simp [requiredMatchFields])
    (by rfl)

/-- C10: the response validator is total — for every input string it
returns either a success dict carrying the parsed payload or a dict
carrying an error message; in particular a JSON decoding failure becomes
an error result (never an exception). -/
theorem c10_validator_total (s : String) :
    ((∃ p, validate_response s = vDict [("success", vBool true), ("parsed", p)]) ∨
     (∃ e, vGet (validate_response s) "error" = some (vStr e))) ∧
    (∀ js e, extractJsonSpan s = some js → jsonParse js = .error e →
      validate_response s =
        vDict [("error", vStr ("JSON parsing failed: " ++ e)),
               ("raw_response", vStr s)]) := by
  constructor
  · rcases validate_response_shape s with ⟨p, hp⟩ | ⟨e, rest, he⟩
    · exact .inl ⟨p, hp⟩
    · exact .inr ⟨e, by rw [he]; rfl⟩
  · intro js e h1 h2
    rw [validate_response, h1]
    simp only [h2]

/-- C10 witness: the theorem's decode-failure clause applied to a
response whose extracted span is not valid JSON. -/
theorem c10_witness :
    validate_response "x \x7b bad \x7d" =
      vDict [("error", vStr ("JSON parsing failed: " ++ "Expecting property name")),
             ("raw_response", vStr "x \x7b bad \x7d")] :=
  (c10_validator_total "x \x7b bad \x7d").2 "\x7b bad \x7d"
    "Expecting property name" (by rfl) (by rfl)

/-- Shared helper: `mapM` over `Except` succeeds when every element maps
successfully, preserving length. -/
theorem mapM_formatWoLine_ok :
    ∀ (l : List (List (String × Value))),
      (∀ row ∈ l, ∃ s, formatWoLine row = .ok s) →
      ∃ lines, l.mapM formatWoLine = .ok lines ∧ lines.length = l.length := by
  intro l
  induction l with
  | nil => exact fun _ => ⟨[], rfl, rfl⟩
  | cons r rest ih =>
    intro h
    obtain ⟨s, hs⟩ := h r (by simp)
    obtain ⟨lines, hl, hlen⟩ := ih fun a ha => h a (by simp [ha])
    refine ⟨s :: lines, ?_, by simp [hlen]⟩
    rw [List.mapM_cons, hs, hl]
    rfl

/-- C9: the instruction builder serializes exactly the first
`min 100 n` candidates as one-line summaries and, beyond 100, appends the
count of the remainder instead of failing; each line truncates the
location to at most 50 characters and the description to at most 80. -/
theorem c9_format_caps_and_truncates (wos : List (List (String × Value)))
    (hne : wos ≠ [])
    (hstr : ∀ row ∈ wos,
      (∃ s, dictGetD row "Location" (vStr "N/A") = vStr s) ∧
      (∃ s, dictGetD row "Description" (vStr "N/A") = vStr s)) :
    (∃ lines : List String,
      (wos.take 100).mapM formatWoLine = .ok lines ∧
      lines.length = min 100 wos.length ∧
      format_work_orders wos = .ok (if 100 < wos.length then
          String.intercalate "\n" lines ++ "\n... and " ++
            toString (wos.length - 100) ++ " more work orders available"
        else String.intercalate "\n" lines)) ∧
    (∀ row locS descS,
      dictGetD row "Location" (vStr "N/A") = vStr locS →
      dictGetD row "Description" (vStr "N/A") = vStr descS →
      formatWoLine row = .ok ("WO#" ++ pyStr (dictGetD row "WO #" (vStr "N/A")) ++
        " | $" ++ pyStr (dictGetD row "Total" (vStr "N/A")) ++ " | " ++
        String.mk (locS.toList.take 50) ++ " | " ++ String.mk (descS.toList.take 80)) ∧
      (String.mk (locS.toList.take 50)).length ≤ 50 ∧
      (String.mk (descS.toList.take 80)).length ≤ 80) := by
  have hline : ∀ (row : List (String × Value)) locS descS,
      dictGetD row "Location" (vStr "N/A") = vStr locS →
      dictGetD row "Description" (vStr "N/A") = vStr descS →
      formatWoLine row = .ok ("WO#" ++ pyStr (dictGetD row "WO #" (vStr "N/A")) ++
        " | $" ++ pyStr (dictGetD row "Total" (vStr "N/A")) ++ " | " ++
        String.mk (locS.toList.take 50) ++ " | " ++ String.mk (descS.toList.take 80)) := by
    intro row locS descS hloc hdesc
    rw [formatWoLine, hloc, hdesc]
    rfl
  refine ⟨?_, fun row locS descS hloc hdesc => ⟨hline row locS descS hloc hdesc, ?_, ?_⟩⟩
  · have hex : ∀ row ∈ wos.take 100, ∃ s, formatWoLine row = .ok s := by
      intro row hrow
      obtain ⟨⟨ls, hl⟩, ⟨ds, hd⟩⟩ := hstr row (List.mem_of_mem_take hrow)
      exact ⟨_, hline row ls ds hl hd⟩
    obtain ⟨lines, hmapM, hlen⟩ := mapM_formatWoLine_ok (wos.take 100) hex
    refine ⟨lines, hmapM, by rw [hlen, List.length_take], ?_⟩
    rw [format_work_orders, if_neg (by simp [List.isEmpty_iff, hne])]
    simp only [hmapM]
    show (if wos.length > 100 then
        (Except.ok (String.intercalate "\n" lines ++ "\n... and " ++
          toString (wos.length - 100) ++ " more work orders available") :
          Except String String)
      else Except.ok (String.intercalate "\n" lines)) = _
    by_cases h : 100 < wos.length
    · rw [if_pos h, if_pos h]
    · rw [if_neg h, if_neg h]
  · calc (String.mk (locS.toList.take 50)).length = (locS.toList.take 50).length := rfl
      _ ≤ 50 := by simp
  · calc (String.mk (descS.toList.take 80)).length = (descS.toList.take 80).length := rfl
      _ ≤ 80 := by simp


/-- C9 witness: the theorem applied to a one-candidate batch of string
cells. -/
theorem c9_witness :
    (∃ lines : List String,
      (woW.take 100).mapM formatWoLine = .ok lines ∧
      lines.length = min 100 woW.length ∧
      format_work_orders woW = .ok (if 100 < woW.length then
          String.intercalate "\n" lines ++ "\n... and " ++
            toString (woW.length - 100) ++ " more work orders available"
        else String.intercalate "\n" lines)) ∧
    (∀ row locS descS,
      dictGetD row "Location" (vStr "N/A") = vStr locS →
      dictGetD row "Description" (vStr "N/A") = vStr descS →
      formatWoLine row = .ok ("WO#" ++ pyStr (dictGetD row "WO #" (vStr "N/A")) ++
        " | $" ++ pyStr (dictGetD row "Total" (vStr "N/A")) ++ " | " ++
        String.mk (locS.toList.take 50) ++ " | " ++ String.mk (descS.toList.take 80)) ∧
      (String.mk (locS.toList.take 50)).length ≤ 50 ∧
      (String.mk (descS.toList.take 80)).length ≤ 80) :=
  c9_format_caps_and_truncates woW (by simp [woW])
    (fun row hrow => by
      rcases List.mem_singleton.mp (by simpa [woW] using hrow) with rfl
      exact ⟨⟨"Loc", rfl⟩, ⟨"Desc", rfl⟩⟩)

/-- Shared helper: input below the minimum length is invalid, before any
security or content processing. -/
theorem sanitize_short_invalid (text : String) (strict : Bool)
    (h : text.length < 20) :
    (sanitize_email_text text strict).is_valid = false ∧
    (sanitize_email_text text strict).errors ≠ [] := by
  rw [sanitize_email_text]
  by_cases h0 : text = ""
  · rw [if_pos h0]
    exact ⟨rfl, by simp⟩
  · rw [if_neg h0]
    have hnl : ¬ (text.length > 10000 ∧ strict = true) := fun ⟨h1, _⟩ => by omega
    rw [if_neg hnl]
    have ht : ¬ (text.length > 10000) := by omega
    simp only [if_neg ht]
    rw [if_pos h]
    exact ⟨rfl, by simp⟩

/-- C4 (amended): free text that fails the minimum-length check is
rejected before any instruction is built or any Gateway call is made, and
the rejection is surfaced to the caller as a failure (`success = false`
with an error message).  (The no-currency content check, by contrast,
only produces a warning — see the counterexample.) -/
theorem c4_short_input_fail_fast (strict save_debug : Bool)
    (gw : String → Option String) (text : String)
    (wos : List (List (String × Value))) (n : Nat)
    (hshort : text.length < 20) :
    (find_matches strict save_debug gw text wos n).gatewayCalled = false ∧
    (find_matches strict save_debug gw text wos n).prompt = none ∧
    vGet (find_matches strict save_debug gw text wos n).result "success" =
      some (vBool false) ∧
    ∃ e, vGet (find_matches strict save_debug gw text wos n).result "error" =
      some (vStr e) := by
  obtain ⟨hiv, -⟩ := sanitize_short_invalid text strict hshort
  rw [find_matches]
  simp only [hiv]
  exact ⟨rfl, rfl, rfl, ⟨_, rfl⟩⟩

/-- C4 witness: the amended theorem applied to the two-character input
`"hi"`. -/
theorem c4_witness :
    (find_matches true false (fun _ => some "ok") "hi" [] 5).gatewayCalled = false ∧
    (find_matches true false (fun _ => some "ok") "hi" [] 5).prompt = none ∧
    vGet (find_matches true false (fun _ => some "ok") "hi" [] 5).result "success" =
      some (vBool false) ∧
    ∃ e, vGet (find_matches true false (fun _ => some "ok") "hi" [] 5).result "error" =
      some (vStr e) :=
  c4_short_input_fail_fast true false (fun _ => some "ok") "hi" [] 5 (by decide)


/-- C4 counterexample: free text with no currency-like content is NOT
rejected — the sanitizer marks it valid and only records the no-currency
warning, and the matching run builds an instruction and calls the
Gateway. -/
theorem c4_counterexample :
    (sanitize_email_text c4Text true).is_valid = true ∧
    "No currency amounts detected - this may not be billing text" ∈
      (sanitize_email_text c4Text true).warnings ∧
    (find_matches true false (fun _ => none) c4Text [] 5).gatewayCalled = true ∧
    (find_matches true false (fun _ => none) c4Text [] 5).prompt ≠ none := by
  have hn : ¬ ((specialCharCount c4Text : ℚ) / (c4Text.length : ℚ) > 0.1) := by
    norm_num [show specialCharCount c4Text = 0 from by decide]
  have hsec : _check_security_patterns c4Text = [] := by
    simp only [_check_security_patterns, if_neg hn,
      show tagPairMatch "<script" "</script>" c4Text = false from by decide,
      show strContainsSub (asciiLower c4Text) "javascript:" = false from by decide,
      show seqThenSeq "data:" "base64" c4Text = false from by decide,
      show seqThenSeq "<!--" "-->" c4Text = false from by decide,
      show tagPairMatch "<iframe" "</iframe>" c4Text = false from by decide]
    simp
  have hsan : sanitize_email_text c4Text true =
      { sanitized_text := c4Text, is_valid := true,
        warnings := ["No currency amounts detected - this may not be billing text",
          "Text has very few lines - typical billing emails have multiple line items"],
        errors := [], original_length := 52, sanitized_length := 52 } := by
    simp only [sanitize_email_text, show c4Text.length = 52 from rfl]
    norm_num [hsec]
    decide
  refine ⟨by rw [hsan], by rw [hsan]; simp, ?_, ?_⟩
  · rw [find_matches, hsan]
    rfl
  · rw [find_matches, hsan]
    exact fun h => Option.noConfusion h
